import Mathlib

set_option maxRecDepth 8000

/-
Verification development for the aerospike C client sources:
  cl_libevent2/src/cl_cluster.c   (cluster membership, tending, partition table feed)
  src/main/aerospike/aerospike_scan.c  (parallel scan executor)

C strings are modelled as lists of characters (`CStr`), C ints as `Int`,
unsigned accumulators as `Nat`.  Each definition mirrors the source function
of the same name; deviations and externally-modelled collaborators are
documented at the definition.
-/

namespace Aerospike

/-- C strings (NUL-terminated char arrays) are modelled as lists of characters. -/
abbrev CStr := List Char

/-- A `struct sockaddr_in` is identified by its dotted-quad host string and port. -/
abbrev Sockaddr := CStr × Int

/-- An outgoing info request: destination sockaddr and the newline-separated names. -/
abbrev Ping := Sockaddr × CStr

/-- Accumulator step for `str_split` (cl_cluster.c `str_split`): `cur` is the
segment collected since the last separator. -/
def str_split_aux (split_c : Char) (cur : CStr) : CStr → List CStr
  | [] => if cur = [] then [] else [cur]
  | c :: rest =>
    if c = split_c then cur :: str_split_aux split_c [] rest
    else str_split_aux split_c (cur ++ [c]) rest

/-- cl_cluster.c `str_split`: split on a character; every separator emits the
segment before it (possibly empty); the final segment is emitted only when
non-empty. -/
def str_split (split_c : Char) (s : CStr) : List CStr :=
  str_split_aux split_c [] s

/-- Leading-digits accumulator used by `atoi`. -/
def cstr_digits_aux : CStr → Nat → Nat
  | [], acc => acc
  | c :: rest, acc =>
    if c.isDigit then cstr_digits_aux rest (acc * 10 + (c.toNat - 48)) else acc

/-- C `atoi`: skip leading whitespace, optional sign, then leading digits
(0 when there are none).  Overflow is not modelled; all inputs of interest
are small. -/
def atoi (s : CStr) : Int :=
  let t := s.dropWhile (fun c =>
    c == ' ' || c == '\t' || c == '\n' || c == '\x0b' || c == '\x0c' || c == '\r')
  match t with
  | '-' :: r => - (cstr_digits_aux r 0 : Int)
  | '+' :: r => (cstr_digits_aux r 0 : Int)
  | _ => (cstr_digits_aux t 0 : Int)

/-- Cast of a C int to uint32_t, as in `(uint32_t)atoi(value)`. -/
def toUInt32Nat (i : Int) : Nat := (i % (4294967296 : Int)).toNat

/-- True when the string is an `a.b.c.d` IPv4 literal (each part decimal, ≤ 255). -/
def isDottedQuad (s : CStr) : Bool :=
  let parts := str_split '.' s
  parts.length = 4 &&
    parts.all (fun p => !p.isEmpty && p.all Char.isDigit && cstr_digits_aux p 0 ≤ 255)

/-- Modelled from the spec: `cl_lookup_immediate` (the DNS collaborator's
synchronous immediate resolver, §6) is not among the sources; it succeeds
exactly on dotted-quad literals, returning the corresponding sockaddr. -/
def cl_lookup_immediate (host : CStr) (port : Int) : Option Sockaddr :=
  if isDottedQuad host then some (host, port) else none

/-- `cl_cluster_node`: the fields of the node structure that the modelled
functions read or write.  `dun_count` and `partition_generation` are
non-negative atomics, modelled as `Nat`. -/
structure cl_cluster_node where
  name : CStr
  sockaddr_in_v : List Sockaddr
  dun_count : Nat
  dunned : Bool
  partition_generation : Nat
  partition_last_req_ms : Nat
deriving DecidableEq

/-- `ev2citrusleaf_cluster`: the fields the modelled functions use.  The two
parallel seed-host vectors `host_str_v` / `host_port_v` (always appended in
lockstep) are modelled as one list of pairs. -/
structure ev2citrusleaf_cluster where
  hosts : List (CStr × Int)
  node_v : List cl_cluster_node
  n_partitions : Int
  follow : Bool
  shutdown : Bool
deriving DecidableEq

/-- The dun reasons (enum `cl_cluster_dun_type`).  `DUN_BAD_NAME` is used by
`node_timer_infocb_fn` and falls into the `default` arm of the weight switch. -/
inductive cl_cluster_dun_type
  | DUN_USER_TIMEOUT
  | DUN_INFO_FAIL
  | DUN_REPLICAS_FETCH
  | DUN_NO_SOCKADDR
  | DUN_NETWORK_ERROR
  | DUN_RESTART_FD
  | DUN_BAD_NAME
deriving DecidableEq

/-- cl_cluster.c line 40. -/
def CL_NODE_DUN_THRESHOLD : Nat := 800

/-- cl_cluster.c line 47. -/
def CL_NODE_PARTITION_MAX_MS : Nat := 5000

/-- The `dun_factor` computed by the switch in `cl_cluster_node_dun`
(cl_cluster.c lines 1041-1075); unknown reasons take the default weight 1. -/
def dun_factor : cl_cluster_dun_type → Nat
  | .DUN_USER_TIMEOUT => 1
  | .DUN_INFO_FAIL => 300
  | .DUN_REPLICAS_FETCH => 1000
  | .DUN_NO_SOCKADDR => 1000
  | .DUN_NETWORK_ERROR => 50
  | .DUN_RESTART_FD => 50
  | .DUN_BAD_NAME => 1

/-- `cl_cluster_node_dun` (cl_cluster.c lines 1033-1084): add the reason's
weight to `dun_count`; latch `dunned` once the accumulator strictly exceeds
`CL_NODE_DUN_THRESHOLD`. -/
def cl_cluster_node_dun (cn : cl_cluster_node) (t : cl_cluster_dun_type) : cl_cluster_node :=
  let dc := cn.dun_count + dun_factor t
  { cn with dun_count := dc, dunned := if dc > CL_NODE_DUN_THRESHOLD then true else cn.dunned }

/-- `cl_cluster_node_ok` (cl_cluster.c lines 1086-1098): reset both health fields. -/
def cl_cluster_node_ok (cn : cl_cluster_node) : cl_cluster_node :=
  { cn with dun_count := 0, dunned := false }

/-- A node's health after a sequence of dun events (repeated `cl_cluster_node_dun`). -/
def apply_duns (cn : cl_cluster_node) (ts : List cl_cluster_dun_type) : cl_cluster_node :=
  ts.foldl cl_cluster_node_dun cn

/-- Total weight of a sequence of dun events. -/
def dun_weight (ts : List cl_cluster_dun_type) : Nat :=
  (ts.map dun_factor).sum

/-- `ev2citrusleaf_cluster_add_host_internal` (cl_cluster.c lines 484-504):
append the (host, port) pair unless an identical pair is already present. -/
def ev2citrusleaf_cluster_add_host_internal (asc : ev2citrusleaf_cluster)
    (host_in : CStr) (port_in : Int) : ev2citrusleaf_cluster :=
  if asc.hosts.any (fun hp => hp.1 = host_in ∧ hp.2 = port_in) then asc
  else { asc with hosts := asc.hosts ++ [(host_in, port_in)] }

/-- `ev2citrusleaf_cluster_follow` (cl_cluster.c lines 527-531). -/
def ev2citrusleaf_cluster_follow (asc : ev2citrusleaf_cluster) (flag : Bool) :
    ev2citrusleaf_cluster :=
  { asc with follow := flag }

/-- `cluster_new_sockaddr` (cl_cluster.c lines 1372-1415): ignore the address
when shutting down or when it already belongs to some node; otherwise launch a
ping (`ev2citrusleaf_info_host`) for `node`+`partitions`, or just `node` once
the partition count is known.  The launched info request is returned; cluster
state itself is unchanged. -/
def cluster_new_sockaddr (asc : ev2citrusleaf_cluster) (new_sin : Sockaddr) : Option Ping :=
  if asc.shutdown then none
  else if asc.node_v.any (fun cn => new_sin ∈ cn.sockaddr_in_v) then none
  else some (new_sin,
    if asc.n_partitions = 0 then ("node\npartitions").data else ("node").data)

/-- Loop body of `cluster_services_parse` over the `;`-separated entries:
entries that split into exactly host and port and resolve immediately launch a
ping via `cluster_new_sockaddr` and are added to the seed-host list. -/
def cluster_services_parse_go (asc : ev2citrusleaf_cluster) (pings : List Ping) :
    List CStr → ev2citrusleaf_cluster × List Ping
  | [] => (asc, pings)
  | host_str :: rest =>
    match str_split ':' host_str with
    | [host_s, port_s] =>
      let port := atoi port_s
      match cl_lookup_immediate host_s port with
      | some sin =>
        let ping := cluster_new_sockaddr asc sin
        let asc1 := ev2citrusleaf_cluster_add_host_internal asc host_s port
        cluster_services_parse_go asc1 (pings ++ ping.toList) rest
      | none => cluster_services_parse_go asc pings rest
    | _ => cluster_services_parse_go asc pings rest

/-- `cluster_services_parse` (cl_cluster.c lines 155-179): split the services
string on `;` and process each `host:port` entry. -/
def cluster_services_parse (asc : ev2citrusleaf_cluster) (services : CStr) :
    ev2citrusleaf_cluster × List Ping :=
  cluster_services_parse_go asc [] (str_split ';' services)

/-- Result of `node_timer_infocb_fn`: the updated node, the updated cluster,
and the info requests launched while processing the response. -/
structure InfoCbOut where
  cn : cl_cluster_node
  asc : ev2citrusleaf_cluster
  pings : List Ping
deriving DecidableEq

/-- The request names of the replicas fetch launched from the info callback. -/
def replicas_req_names : CStr :=
  ("replicas-read\nreplicas-write\npartition-generation").data

/-- Line loop of `node_timer_infocb_fn` (cl_cluster.c lines 633-694) over the
already-split `name`/`value` pairs.  `now` stands for `cf_getms()`.  A `node`
line whose value differs from the known name duns the node and stops the loop;
a `partition-generation` change after `CL_NODE_PARTITION_MAX_MS` launches a
replicas request to the node's first address; a `services` line is parsed
unconditionally. -/
def node_timer_infocb_pairs (now : Nat) :
    List (List CStr) → cl_cluster_node → ev2citrusleaf_cluster → List Ping → InfoCbOut
  | [], cn, asc, ps => ⟨cn, asc, ps⟩
  | pair :: rest, cn, asc, ps =>
    match pair with
    | [name, value] =>
      if name = ("node").data then
        if value ≠ cn.name then ⟨cl_cluster_node_dun cn .DUN_BAD_NAME, asc, ps⟩
        else node_timer_infocb_pairs now rest cn asc ps
      else if name = ("partition-generation").data then
        if cn.partition_generation ≠ toUInt32Nat (atoi value) then
          if cn.partition_last_req_ms + CL_NODE_PARTITION_MAX_MS < now then
            let cn1 := { cn with partition_last_req_ms := now }
            match cn1.sockaddr_in_v with
            | sa :: _ =>
              node_timer_infocb_pairs now rest cn1 asc (ps ++ [(sa, replicas_req_names)])
            | [] => node_timer_infocb_pairs now rest cn1 asc ps
          else node_timer_infocb_pairs now rest cn asc ps
        else node_timer_infocb_pairs now rest cn asc ps
      else if name = ("services").data then
        let r := cluster_services_parse asc value
        node_timer_infocb_pairs now rest cn r.1 (ps ++ r.2)
      else node_timer_infocb_pairs now rest cn asc ps
    | _ => node_timer_infocb_pairs now rest cn asc ps

/-- `node_timer_infocb_fn` (cl_cluster.c lines 609-700): short-circuit when the
node is dunned or the cluster is shutting down; a non-zero return value duns
the node with `DUN_INFO_FAIL`; otherwise mark the node ok and walk the
`name<TAB>value` lines of the response. -/
def node_timer_infocb_fn (return_value : Int) (response : CStr)
    (this_cn : cl_cluster_node) (asc : ev2citrusleaf_cluster) (now : Nat) : InfoCbOut :=
  if this_cn.dunned ∨ asc.shutdown then ⟨this_cn, asc, []⟩
  else if return_value ≠ 0 then ⟨cl_cluster_node_dun this_cn .DUN_INFO_FAIL, asc, []⟩
  else
    let cn := cl_cluster_node_ok this_cn
    node_timer_infocb_pairs now ((str_split '\n' response).map (str_split '\t')) cn asc []

/-- `cl_cluster_node_get_byname` (cl_cluster.c lines 1001-1016): first node in
the list whose name matches. -/
def cl_cluster_node_get_byname : List cl_cluster_node → CStr → Option cl_cluster_node
  | [], _ => none
  | n :: rest, name => if n.name = name then some n else cl_cluster_node_get_byname rest name

/-- The freshly-initialized fields of `cl_cluster_node_create`
(cl_cluster.c lines 798-852), before the address is attached. -/
def cl_cluster_node_create_fresh (name : CStr) : cl_cluster_node :=
  { name := name, sockaddr_in_v := [], dun_count := 0, dunned := false,
    partition_generation := 4294967295, partition_last_req_ms := 0 }

/-- `cf_vector_append_unique` on a node's address list. -/
def node_add_sockaddr_unique (cn : cl_cluster_node) (sa : Sockaddr) : cl_cluster_node :=
  if sa ∈ cn.sockaddr_in_v then cn else { cn with sockaddr_in_v := cn.sockaddr_in_v ++ [sa] }

/-- Apply `f` to the first node with the given name (the C code mutates the
node found by `cl_cluster_node_get_byname` in place). -/
def update_node_byname (f : cl_cluster_node → cl_cluster_node) (name : CStr) :
    List cl_cluster_node → List cl_cluster_node
  | [] => []
  | n :: rest =>
    if n.name = name then f n :: rest else n :: update_node_byname f name rest

/-- One `name`/`value` pair of `cluster_ping_node_fn` (cl_cluster.c lines
1296-1319): a `node` line attaches the pinged sockaddr to the named node,
creating the node first when the name is new; a `partitions` line stores
`atoi(value)` into the cluster's `n_partitions` unconditionally. -/
def cluster_ping_node_pair (asc : ev2citrusleaf_cluster) (sa_in : Sockaddr)
    (name value : CStr) : ev2citrusleaf_cluster :=
  if name = ("node").data then
    match cl_cluster_node_get_byname asc.node_v value with
    | some _ =>
      { asc with node_v := update_node_byname (fun cn => node_add_sockaddr_unique cn sa_in) value asc.node_v }
    | none =>
      let cn := node_add_sockaddr_unique (cl_cluster_node_create_fresh value) sa_in
      { asc with node_v := asc.node_v ++ [cn] }
  else if name = ("partitions").data then
    { asc with n_partitions := atoi value }
  else asc

/-- Pair loop of `cluster_ping_node_fn` over the split lines. -/
def cluster_ping_node_pairs (sa_in : Sockaddr) :
    List (List CStr) → ev2citrusleaf_cluster → ev2citrusleaf_cluster
  | [], asc => asc
  | pair :: rest, asc =>
    match pair with
    | [name, value] => cluster_ping_node_pairs sa_in rest (cluster_ping_node_pair asc sa_in name value)
    | _ => cluster_ping_node_pairs sa_in rest asc

/-- `cluster_ping_node_fn` (cl_cluster.c lines 1268-1340): bail out on a
non-zero return value or during shutdown, else process the `name<TAB>value`
lines.  (The final request-queue drain does not touch the modelled state.) -/
def cluster_ping_node_fn (return_value : Int) (values : CStr) (sa_in : Sockaddr)
    (asc : ev2citrusleaf_cluster) : ev2citrusleaf_cluster :=
  if return_value ≠ 0 ∨ asc.shutdown then asc
  else cluster_ping_node_pairs sa_in ((str_split '\n' values).map (str_split '\t')) asc

/-- The filtered count computed (and then discarded) by the loop of
`ev2citrusleaf_cluster_get_active_node_count` (cl_cluster.c lines 358-388):
nodes with a non-empty name, not dunned, and with at least one address. -/
def cluster_active_node_count_filtered (node_v : List cl_cluster_node) : Nat :=
  (node_v.filter (fun node =>
    !node.name.isEmpty && !node.dunned && !node.sockaddr_in_v.isEmpty)).length

/-- `ev2citrusleaf_cluster_get_active_node_count` (cl_cluster.c lines 347-395):
the loop computes the filtered `count`, but the function returns
`cf_vector_size(&asc->node_v)` (line 390). -/
def ev2citrusleaf_cluster_get_active_node_count (asc : ev2citrusleaf_cluster) : Int :=
  let _count := cluster_active_node_count_filtered asc.node_v
  (asc.node_v.length : Int)

/-- The effective sleep duration of `ev2citrusleaf_cluster_destroy`
(cl_cluster.c lines 413-422): a `delay_ms` outside [0, 60000] is replaced by
100, then the function sleeps that many milliseconds. -/
def ev2citrusleaf_cluster_destroy_delay_ms (delay_ms : Int) : Int :=
  if delay_ms < 0 ∨ delay_ms > 60 * 1000 then 100 else delay_ms

/-- The delay the spec prescribes, in the spec's words: "clamped to [0, 60000]". -/
def destroy_delay_clamped_spec (delay_ms : Int) : Int :=
  max 0 (min delay_ms 60000)

/-- The partition table as a map from (namespace, partition-id, write) to the
owning node's name; a missing key is an empty cell. -/
abbrev PTable := List ((CStr × Int × Bool) × CStr)

/-- Current owner of a cell. -/
def pt_get (t : PTable) (k : CStr × Int × Bool) : Option CStr :=
  (t.find? (fun e => e.1 = k)).map (fun e => e.2)

/-- Modelled from the spec: `cl_partition_table_set` lives in
cl_partition_table.c, which is not among the sources.  Per §4.D it "replaces
the current owner cell ... Rejects partition-id >= N and namespace length > 31
with a warning; no error is propagated". -/
def cl_partition_table_set (n_partitions : Int) (t : PTable) (cn_name : CStr)
    (ns : CStr) (pid : Int) (write : Bool) : PTable :=
  if pid ≥ n_partitions ∨ ns.length > 31 then t
  else ((ns, pid, write), cn_name) :: t.filter (fun e => e.1 ≠ (ns, pid, write))

/-- Entry loop of `cluster_partitions_process` over the `;`-separated
`namespace:part_id` entries (cl_cluster.c lines 201-225): entries whose
namespace is longer than 30 bytes, or whose partition id exceeds
`asc->n_partitions`, are skipped with a warning; the rest go to
`cl_partition_table_set`. -/
def cluster_partitions_process_go (n_partitions : Int) (cn_name : CStr) (write : Bool) :
    List CStr → PTable → PTable
  | [], t => t
  | partition_str :: rest, t =>
    match str_split ':' partition_str with
    | [namespace_s, partid_s] =>
      let partid := atoi partid_s
      if namespace_s.length > 30 then
        cluster_partitions_process_go n_partitions cn_name write rest t
      else if partid > n_partitions then
        cluster_partitions_process_go n_partitions cn_name write rest t
      else
        cluster_partitions_process_go n_partitions cn_name write rest
          (cl_partition_table_set n_partitions t cn_name namespace_s partid write)
    | _ => cluster_partitions_process_go n_partitions cn_name write rest t

/-- `cluster_partitions_process` (cl_cluster.c lines 190-230). -/
def cluster_partitions_process (n_partitions : Int) (t : PTable) (cn_name : CStr)
    (partitions : CStr) (write : Bool) : PTable :=
  cluster_partitions_process_go n_partitions cn_name write (str_split ';' partitions) t

/-- The `as_status` values that the scan path produces.  Raw server result
codes propagated through `as_error_set_message(err, msg->result_code, ...)`
are carried by `serverResult`. -/
inductive as_status
  | AEROSPIKE_OK
  | AEROSPIKE_NO_MORE_RECORDS
  | AEROSPIKE_ERR_CLIENT_ABORT
  | AEROSPIKE_ERR_SCAN_ABORTED
  | AEROSPIKE_ERR_PARAM
  | serverResult (code : Nat)
deriving DecidableEq

/-- The server result code `AEROSPIKE_ERR_RECORD_NOT_FOUND` (as_status.h,
value 2), compared against `msg->result_code` in `as_scan_parse_records`. -/
def AEROSPIKE_ERR_RECORD_NOT_FOUND : Nat := 2

/-- aerospike_scan.c / as_command.h: `info3 & AS_MSG_INFO3_LAST (= 0x01)`
marks the final record of a node's scan. -/
def AS_MSG_INFO3_LAST : Nat := 1

/-- One `as_msg` record of a scan response, with the verdict the user callback
would return for it (`cbReturn`). -/
structure as_msg_rec where
  result_code : Nat
  info3 : Nat
  cbReturn : Bool
deriving DecidableEq

/-- `as_scan_parse_record` (aerospike_scan.c lines 62-83): decode the record,
invoke the callback when one is present, and turn a `false` verdict into
`AEROSPIKE_ERR_CLIENT_ABORT`.  Returns the status and the number of callback
invocations made (0 or 1). -/
def as_scan_parse_record (hasCallback : Bool) (m : as_msg_rec) : as_status × Nat :=
  if hasCallback then
    (if m.cbReturn then (.AEROSPIKE_OK, 1) else (.AEROSPIKE_ERR_CLIENT_ABORT, 1))
  else (.AEROSPIKE_OK, 0)

/-- `as_scan_parse_records` (aerospike_scan.c lines 85-125) over one proto
group's records.  `mutexSet` is the observed value of the shared
`error_mutex`.  Returns the status and the number of callback invocations. -/
def as_scan_parse_records (hasCallback mutexSet : Bool) :
    List as_msg_rec → as_status × Nat
  | [] => (.AEROSPIKE_OK, 0)
  | m :: rest =>
    if m.result_code ≠ 0 then
      if m.result_code = AEROSPIKE_ERR_RECORD_NOT_FOUND then (.AEROSPIKE_NO_MORE_RECORDS, 0)
      else (.serverResult m.result_code, 0)
    else if m.info3 &&& AS_MSG_INFO3_LAST ≠ 0 then (.AEROSPIKE_NO_MORE_RECORDS, 0)
    else
      let r := as_scan_parse_record hasCallback m
      if r.1 ≠ .AEROSPIKE_OK then r
      else if mutexSet then (.AEROSPIKE_ERR_SCAN_ABORTED, r.2)
      else
        let r2 := as_scan_parse_records hasCallback mutexSet rest
        (r2.1, r.2 + r2.2)

/-- `as_scan_parse` (aerospike_scan.c lines 127-173): read proto groups and
parse each; a non-OK group status ends the loop, with
`AEROSPIKE_NO_MORE_RECORDS` collapsed to `AEROSPIKE_OK` (lines 161-168).
`endStatus` is the socket-read status produced once the group stream ends. -/
def as_scan_parse (hasCallback mutexSet : Bool) (endStatus : as_status) :
    List (List as_msg_rec) → as_status × Nat
  | [] => (endStatus, 0)
  | g :: gs =>
    let r := as_scan_parse_records hasCallback mutexSet g
    if r.1 = .AEROSPIKE_OK then
      let r2 := as_scan_parse hasCallback mutexSet endStatus gs
      (r2.1, r.2 + r2.2)
    else if r.1 = .AEROSPIKE_NO_MORE_RECORDS then (.AEROSPIKE_OK, r.2)
    else r

/-- The per-node result aggregation of `as_scan_generic` (aerospike_scan.c
lines 407-414 and 423-427): the first non-OK result wins. -/
def as_scan_aggregate_status (results : List as_status) : as_status :=
  results.foldl
    (fun st r => if r ≠ .AEROSPIKE_OK ∧ st = .AEROSPIKE_OK then r else st)
    .AEROSPIKE_OK

/-- Completion stage of `as_scan_generic` (aerospike_scan.c lines 440-449):
collapse `AEROSPIKE_ERR_CLIENT_ABORT` to `AEROSPIKE_OK`, then invoke the
callback once with a NULL record exactly when a callback was supplied and the
status is OK.  Returns the status handed to the caller and whether that final
callback was made. -/
def as_scan_generic_complete (results : List as_status) (hasCallback : Bool) :
    as_status × Bool :=
  let status0 := as_scan_aggregate_status results
  let status := if status0 = .AEROSPIKE_ERR_CLIENT_ABORT then .AEROSPIKE_OK else status0
  (status, hasCallback && decide (status = .AEROSPIKE_OK))

/-- Modelled from the spec: `as_node_get_by_name` lives in as_cluster.c, which
is not among the sources; it returns the cluster node whose name matches, or
NULL.  Nodes are identified by their names here. -/
def as_node_get_by_name : List CStr → CStr → Option CStr
  | [], _ => none
  | n :: rest, name => if n = name then some n else as_node_get_by_name rest name

/-- `aerospike_scan_node` (aerospike_scan.c lines 640-696): an unknown node
name returns `AEROSPIKE_ERR_PARAM` before any command is built; otherwise the
scan runs on that node (its status and per-record callback count are
`execStatus` / `execCallbacks`) and the final NULL-record callback happens
exactly when a callback was supplied and the status is OK.  Returns the status
and the total number of callback invocations. -/
def aerospike_scan_node (cluster_nodes : List CStr) (node_name : CStr)
    (hasCallback : Bool) (execStatus : as_status) (execCallbacks : Nat) :
    as_status × Nat :=
  match as_node_get_by_name cluster_nodes node_name with
  | none => (.AEROSPIKE_ERR_PARAM, 0)
  | some _ =>
    (execStatus,
      execCallbacks + (if hasCallback ∧ execStatus = .AEROSPIKE_OK then 1 else 0))

/- ===================== helper lemmas ===================== -/

lemma str_split_aux_no_sep (sep : Char) (s : CStr) (h : sep ∉ s) :
    ∀ cur, str_split_aux sep cur s = if cur ++ s = [] then [] else [cur ++ s] := by
  induction s with
  | nil => intro cur; simp [str_split_aux]
  | cons c rest ih =>
    intro cur
    have hc : c ≠ sep := fun hcs => h (hcs ▸ List.mem_cons_self c rest)
    have hrest : sep ∉ rest := fun hm => h (List.mem_cons_of_mem c hm)
    rw [str_split_aux, if_neg hc, ih hrest (cur ++ [c])]
    simp

lemma str_split_aux_sep_split (sep : Char) (a : CStr) (ha : sep ∉ a) (b : CStr) :
    ∀ cur, str_split_aux sep cur (a ++ sep :: b) = (cur ++ a) :: str_split_aux sep [] b := by
  induction a with
  | nil => intro cur; simp [str_split_aux]
  | cons c rest ih =>
    intro cur
    have hc : c ≠ sep := fun hcs => ha (hcs ▸ List.mem_cons_self c rest)
    have hrest : sep ∉ rest := fun hm => ha (List.mem_cons_of_mem c hm)
    rw [List.cons_append, str_split_aux, if_neg hc, ih hrest (cur ++ [c])]
    simp

lemma str_split_no_sep (sep : Char) (s : CStr) (h : sep ∉ s) (hne : s ≠ []) :
    str_split sep s = [s] := by
  unfold str_split
  rw [str_split_aux_no_sep sep s h []]
  simp [hne]

lemma str_split_pair (sep : Char) (a b : CStr) (ha : sep ∉ a) (hb : sep ∉ b)
    (hbne : b ≠ []) : str_split sep (a ++ sep :: b) = [a, b] := by
  unfold str_split
  rw [str_split_aux_sep_split sep a ha b [], str_split_aux_no_sep sep b hb []]
  simp [hbne]

lemma cl_cluster_node_dun_count (cn : cl_cluster_node) (t : cl_cluster_dun_type) :
    (cl_cluster_node_dun cn t).dun_count = cn.dun_count + dun_factor t := rfl

lemma cl_cluster_node_dun_dunned (cn : cl_cluster_node) (t : cl_cluster_dun_type)
    (h : cn.dunned = decide (cn.dun_count > CL_NODE_DUN_THRESHOLD)) :
    (cl_cluster_node_dun cn t).dunned
      = decide (cn.dun_count + dun_factor t > CL_NODE_DUN_THRESHOLD) := by
  simp only [cl_cluster_node_dun]
  by_cases hgt : cn.dun_count + dun_factor t > CL_NODE_DUN_THRESHOLD
  · simp [hgt]
  · have h2 : ¬ (cn.dun_count > CL_NODE_DUN_THRESHOLD) := by omega
    simp [hgt, h, h2]

lemma dun_weight_cons (t : cl_cluster_dun_type) (rest : List cl_cluster_dun_type) :
    dun_weight (t :: rest) = dun_factor t + dun_weight rest := by
  simp [dun_weight]

lemma apply_duns_spec (ts : List cl_cluster_dun_type) :
    ∀ cn : cl_cluster_node, cn.dunned = decide (cn.dun_count > CL_NODE_DUN_THRESHOLD) →
      (apply_duns cn ts).dun_count = cn.dun_count + dun_weight ts ∧
      (apply_duns cn ts).dunned
        = decide (cn.dun_count + dun_weight ts > CL_NODE_DUN_THRESHOLD) := by
  induction ts with
  | nil =>
    intro cn h
    refine ⟨by simp [apply_duns, dun_weight], ?_⟩
    simpa [apply_duns, dun_weight] using h
  | cons t rest ih =>
    intro cn h
    have hstep := cl_cluster_node_dun_dunned cn t h
    have hrec := ih (cl_cluster_node_dun cn t)
      (by rw [hstep, cl_cluster_node_dun_count])
    have hlist : apply_duns cn (t :: rest) = apply_duns (cl_cluster_node_dun cn t) rest := rfl
    have harith : cn.dun_count + dun_factor t + dun_weight rest
        = cn.dun_count + dun_weight (t :: rest) := by
      rw [dun_weight_cons]; omega
    constructor
    · rw [hlist, hrec.1, cl_cluster_node_dun_count, harith]
    · rw [hlist, hrec.2, cl_cluster_node_dun_count, harith]

/- ===================== C7 ===================== -/

/-- Claim C7: starting from a fresh node, the dunned flag after any sequence of
dun events is set exactly when the accumulated weight exceeds 800; in
particular 800 user-timeout duns (weight 1 each) leave the node not dunned and
an 801st weight unit latches the flag. -/
theorem c7_dun_threshold :
    (∀ ts : List cl_cluster_dun_type,
       (apply_duns (cl_cluster_node_create_fresh (("A").data)) ts).dun_count = dun_weight ts ∧
       (apply_duns (cl_cluster_node_create_fresh (("A").data)) ts).dunned
         = decide (dun_weight ts > CL_NODE_DUN_THRESHOLD))
  ∧ (apply_duns (cl_cluster_node_create_fresh (("A").data))
       (List.replicate 800 .DUN_USER_TIMEOUT)).dunned = false
  ∧ (apply_duns (cl_cluster_node_create_fresh (("A").data))
       (List.replicate 801 .DUN_USER_TIMEOUT)).dunned = true := by
  have main : ∀ ts : List cl_cluster_dun_type,
      (apply_duns (cl_cluster_node_create_fresh (("A").data)) ts).dun_count = dun_weight ts ∧
      (apply_duns (cl_cluster_node_create_fresh (("A").data)) ts).dunned
        = decide (dun_weight ts > CL_NODE_DUN_THRESHOLD) := by
    intro ts
    have h := apply_duns_spec ts (cl_cluster_node_create_fresh (("A").data)) (by rfl)
    simpa [cl_cluster_node_create_fresh] using h
  have hrep : ∀ n : Nat,
      dun_weight (List.replicate n cl_cluster_dun_type.DUN_USER_TIMEOUT) = n := by
    intro n
    simp [dun_weight, List.map_replicate, List.sum_replicate, dun_factor]
  refine ⟨main, ?_, ?_⟩
  · rw [(main _).2, hrep 800]; rfl
  · rw [(main _).2, hrep 801]; rfl

/- ===================== C2 ===================== -/

/-- A node whose name was never learned (the filter's first `continue` case). -/
def example_nameless_node : cl_cluster_node :=
  { name := [], sockaddr_in_v := [((("1.2.3.4").data), 3000)], dun_count := 0,
    dunned := false, partition_generation := 0, partition_last_req_ms := 0 }

/-- A cluster whose single node fails the active filter. -/
def example_nameless_cluster : ev2citrusleaf_cluster :=
  { hosts := [], node_v := [example_nameless_node], n_partitions := 0,
    follow := true, shutdown := false }

/-- Claim C2: the function returns the raw vector size, not the filtered
count.  On a cluster with one nameless node the filtered count is 0 yet the
function returns 1; in general the return value is always the node list's
length. -/
theorem c2_active_node_count_returns_raw_size :
    ev2citrusleaf_cluster_get_active_node_count example_nameless_cluster = 1
  ∧ cluster_active_node_count_filtered example_nameless_cluster.node_v = 0
  ∧ (∀ asc : ev2citrusleaf_cluster,
       ev2citrusleaf_cluster_get_active_node_count asc = (asc.node_v.length : Int)) :=
  ⟨by decide, by decide, fun _ => rfl⟩

/- ===================== C5 ===================== -/

/-- Claim C5 counterexample: the destroy delay is not clamped to the nearest
bound of [0, 60000]; out-of-range values are replaced by 100 instead. -/
theorem c5_counterexample :
    ev2citrusleaf_cluster_destroy_delay_ms (-1) = 100
  ∧ destroy_delay_clamped_spec (-1) = 0
  ∧ ev2citrusleaf_cluster_destroy_delay_ms (-1) ≠ destroy_delay_clamped_spec (-1)
  ∧ ev2citrusleaf_cluster_destroy_delay_ms 70000 = 100
  ∧ destroy_delay_clamped_spec 70000 = 60000 := by
  decide

/-- Claim C5 (amended): an in-range `delay_ms` is used as given; a negative or
over-limit `delay_ms` is replaced by 100 ms, not clamped to the nearest bound. -/
theorem c5_amended_delay_fallback (delay_ms : Int) :
    (0 ≤ delay_ms → delay_ms ≤ 60000 →
       ev2citrusleaf_cluster_destroy_delay_ms delay_ms = delay_ms)
  ∧ (delay_ms < 0 ∨ 60000 < delay_ms →
       ev2citrusleaf_cluster_destroy_delay_ms delay_ms = 100) := by
  unfold ev2citrusleaf_cluster_destroy_delay_ms
  constructor
  · intro h1 h2
    rw [if_neg (by omega)]
  · intro h
    rw [if_pos (by omega)]

/-- Witness for `c5_amended_delay_fallback` at the concrete input 70000. -/
theorem c5_amended_delay_fallback_witness :
    ev2citrusleaf_cluster_destroy_delay_ms 70000 = 100 :=
  (c5_amended_delay_fallback 70000).2 (by omega)

/- ===================== C1 ===================== -/

lemma cluster_new_sockaddr_follow (asc : ev2citrusleaf_cluster) (b : Bool) (sin : Sockaddr) :
    cluster_new_sockaddr { asc with follow := b } sin = cluster_new_sockaddr asc sin := by
  cases asc
  rfl

lemma add_host_internal_follow (asc : ev2citrusleaf_cluster) (b : Bool)
    (h : CStr) (p : Int) :
    ev2citrusleaf_cluster_add_host_internal { asc with follow := b } h p
      = { ev2citrusleaf_cluster_add_host_internal asc h p with follow := b } := by
  cases asc
  simp only [ev2citrusleaf_cluster_add_host_internal]
  split <;> rfl

lemma cluster_services_parse_go_follow (l : List CStr) :
    ∀ (asc : ev2citrusleaf_cluster) (b : Bool) (ps : List Ping),
      cluster_services_parse_go { asc with follow := b } ps l
        = ({ (cluster_services_parse_go asc ps l).1 with follow := b },
           (cluster_services_parse_go asc ps l).2) := by
  induction l with
  | nil => intro asc b ps; rfl
  | cons hs rest ih =>
    intro asc b ps
    simp only [cluster_services_parse_go]
    cases hsp : str_split ':' hs with
    | nil => exact ih asc b ps
    | cons x xs =>
      cases xs with
      | nil => exact ih asc b ps
      | cons y ys =>
        cases ys with
        | nil =>
          simp only []
          cases hlk : cl_lookup_immediate x (atoi y) with
          | none => exact ih asc b ps
          | some sin =>
            simp only [cluster_new_sockaddr_follow, add_host_internal_follow]
            exact ih (ev2citrusleaf_cluster_add_host_internal asc x (atoi y)) b
              (ps ++ (cluster_new_sockaddr asc sin).toList)
        | cons z zs => exact ih asc b ps

/-- Claim C1 counterexample: a cluster whose `follow` flag was set to false
through `ev2citrusleaf_cluster_follow`. -/
def example_cluster_nofollow : ev2citrusleaf_cluster :=
  ev2citrusleaf_cluster_follow
    { hosts := [], node_v := [],
      n_partitions := 4096, follow := true, shutdown := false } false

/-- The node whose tend info response carries a services list in the C1
counterexample. -/
def example_node_A : cl_cluster_node :=
  { name := ("A").data, sockaddr_in_v := [((("1.2.3.4").data), 3000)], dun_count := 0,
    dunned := false, partition_generation := 7, partition_last_req_ms := 0 }

/-- Claim C1 is false as stated: with `follow = false`, a tend info response
whose `services` list names `10.0.0.2:3000` still resolves the entry, adds it
to the seed-host list, and launches a `node` ping to the new address — the
services list is not discarded. -/
theorem c1_counterexample :
    example_cluster_nofollow.follow = false
  ∧ (node_timer_infocb_fn 0 (("node\tA\nservices\t10.0.0.2:3000").data)
       example_node_A { example_cluster_nofollow with node_v := [example_node_A] } 0).asc.hosts
      = [((("10.0.0.2").data), 3000)]
  ∧ (node_timer_infocb_fn 0 (("node\tA\nservices\t10.0.0.2:3000").data)
       example_node_A { example_cluster_nofollow with node_v := [example_node_A] } 0).pings
      = [(((("10.0.0.2").data), 3000), ("node").data)] := by
  decide

/-- Claim C1 (amended): each `services` entry is resolved and added as a new
candidate address and seed-host entry whenever immediate resolution succeeds,
regardless of the cluster's `follow` flag: the flag stored by
`ev2citrusleaf_cluster_follow` is never consulted, so the resulting cluster
state and the launched pings are identical for `follow = false` and the
original flag value. -/
theorem c1_amended_follow_ignored (asc : ev2citrusleaf_cluster) (services : CStr) (b : Bool) :
    cluster_services_parse (ev2citrusleaf_cluster_follow asc b) services
      = ({ (cluster_services_parse asc services).1 with follow := b },
         (cluster_services_parse asc services).2) := by
  unfold cluster_services_parse ev2citrusleaf_cluster_follow
  exact cluster_services_parse_go_follow (str_split ';' services) asc b []

/- ===================== C3 / C4 ===================== -/

lemma cluster_partitions_process_single (N : Int) (t : PTable) (cn ns pid_s : CStr)
    (w : Bool) (hns_sc : ';' ∉ ns) (hns_c : ':' ∉ ns) (hp_sc : ';' ∉ pid_s)
    (hp_c : ':' ∉ pid_s) (hpne : pid_s ≠ []) :
    cluster_partitions_process N t cn (ns ++ ':' :: pid_s) w =
      (if ns.length > 30 then t
       else if atoi pid_s > N then t
       else cl_partition_table_set N t cn ns (atoi pid_s) w) := by
  unfold cluster_partitions_process
  have houter : str_split ';' (ns ++ ':' :: pid_s) = [ns ++ ':' :: pid_s] := by
    apply str_split_no_sep
    · intro hm
      rcases List.mem_append.mp hm with h | h
      · exact hns_sc h
      · rcases List.mem_cons.mp h with h | h
        · exact absurd h (by decide)
        · exact hp_sc h
    · simp
  rw [houter]
  unfold cluster_partitions_process_go
  rw [str_split_pair ':' ns pid_s hns_c hp_c hpne]
  simp only [cluster_partitions_process_go]

/-- Claim C3: in a replicas response entry, a partition id ≥ N leaves the
table unchanged (ids strictly above N are skipped by
`cluster_partitions_process`, and id = N is rejected by
`cl_partition_table_set`), while an entry with partition id N-1 is installed. -/
theorem c3_partition_id_bounds (N : Int) (t : PTable) (cn ns pid_s : CStr) (w : Bool)
    (hns_sc : ';' ∉ ns) (hns_c : ':' ∉ ns) (hp_sc : ';' ∉ pid_s) (hp_c : ':' ∉ pid_s)
    (hpne : pid_s ≠ []) (hlen : ns.length ≤ 30) :
    (atoi pid_s ≥ N →
       cluster_partitions_process N t cn (ns ++ ':' :: pid_s) w = t)
  ∧ (atoi pid_s = N - 1 → 1 ≤ N →
       pt_get (cluster_partitions_process N t cn (ns ++ ':' :: pid_s) w) (ns, N - 1, w)
         = some cn) := by
  rw [cluster_partitions_process_single N t cn ns pid_s w hns_sc hns_c hp_sc hp_c hpne]
  constructor
  · intro hge
    rw [if_neg (by omega)]
    by_cases hgt : atoi pid_s > N
    · rw [if_pos hgt]
    · rw [if_neg hgt]
      unfold cl_partition_table_set
      rw [if_pos (Or.inl (by omega))]
  · intro heq hN
    rw [if_neg (by omega), if_neg (by omega)]
    unfold cl_partition_table_set
    rw [if_neg (by push_neg; exact ⟨by omega, by omega⟩), heq]
    simp [pt_get]

/-- Witness for `c3_partition_id_bounds`: with N = 4096, the entry `ns1:4096`
is rejected (table unchanged) and the entry `ns1:4095` is installed. -/
theorem c3_partition_id_bounds_witness :
    cluster_partitions_process 4096 [] (("A").data) (("ns1:4096").data) false = []
  ∧ pt_get (cluster_partitions_process 4096 [] (("A").data) (("ns1:4095").data) false)
      ((("ns1").data), (4096 : Int) - 1, false) = some (("A").data) := by
  constructor
  · have hd : ("ns1:4096").data = (("ns1").data) ++ ':' :: (("4096").data) := by decide
    rw [hd]
    exact (c3_partition_id_bounds 4096 [] (("A").data) (("ns1").data) (("4096").data) false
      (by decide) (by decide) (by decide) (by decide) (by decide) (by decide)).1 (by decide)
  · have hd : ("ns1:4095").data = (("ns1").data) ++ ':' :: (("4095").data) := by decide
    rw [hd]
    exact (c3_partition_id_bounds 4096 [] (("A").data) (("ns1").data) (("4095").data) false
      (by decide) (by decide) (by decide) (by decide) (by decide) (by decide)).2
      (by decide) (by decide)

/-- Claim C4 is false as stated: an entry whose namespace is exactly 31 bytes
long is rejected by the `strlen(namespace_s) > 30` filter of
`cluster_partitions_process` — the cell is not set. -/
theorem c4_counterexample :
    ((("abcdefghijklmnopqrstuvwxyzabcde").data).length = 31)
  ∧ cluster_partitions_process 4096 [] (("A").data)
      (("abcdefghijklmnopqrstuvwxyzabcde:0").data) false = [] := by
  decide

/-- Claim C4 (amended): an entry whose namespace is at most 30 bytes long is
accepted (given a valid partition id); a namespace of 31 bytes or more is
rejected with a warning and without propagating an error — the table is
returned unchanged. -/
theorem c4_amended_namespace_bounds (N : Int) (t : PTable) (cn ns pid_s : CStr) (w : Bool)
    (hns_sc : ';' ∉ ns) (hns_c : ':' ∉ ns) (hp_sc : ';' ∉ pid_s) (hp_c : ':' ∉ pid_s)
    (hpne : pid_s ≠ []) :
    (ns.length ≥ 31 →
       cluster_partitions_process N t cn (ns ++ ':' :: pid_s) w = t)
  ∧ (ns.length ≤ 30 → atoi pid_s < N →
       pt_get (cluster_partitions_process N t cn (ns ++ ':' :: pid_s) w)
         (ns, atoi pid_s, w) = some cn) := by
  rw [cluster_partitions_process_single N t cn ns pid_s w hns_sc hns_c hp_sc hp_c hpne]
  constructor
  · intro h31
    rw [if_pos (by omega)]
  · intro hle hlt
    rw [if_neg (by omega), if_neg (by omega)]
    unfold cl_partition_table_set
    rw [if_neg (by push_neg; exact ⟨by omega, by omega⟩)]
    simp [pt_get]

/-- Witness for `c4_amended_namespace_bounds`: a 31-byte namespace is
rejected, a 30-byte namespace is installed. -/
theorem c4_amended_namespace_bounds_witness :
    cluster_partitions_process 4096 [] (("A").data)
      ((("abcdefghijklmnopqrstuvwxyzabcde").data) ++ ':' :: (("0").data)) false = []
  ∧ pt_get (cluster_partitions_process 4096 [] (("A").data)
      ((("abcdefghijklmnopqrstuvwxyzabcd").data) ++ ':' :: (("7").data)) false)
      ((("abcdefghijklmnopqrstuvwxyzabcd").data), atoi (("7").data), false)
      = some (("A").data) :=
  ⟨(c4_amended_namespace_bounds 4096 [] (("A").data)
      (("abcdefghijklmnopqrstuvwxyzabcde").data) (("0").data) false
      (by decide) (by decide) (by decide) (by decide) (by decide)).1 (by decide),
   (c4_amended_namespace_bounds 4096 [] (("A").data)
      (("abcdefghijklmnopqrstuvwxyzabcd").data) (("7").data) false
      (by decide) (by decide) (by decide) (by decide) (by decide)).2 (by decide) (by decide)⟩

/- ===================== C6 ===================== -/

/-- A cluster that already learned its partition count. -/
def example_cluster_4096 : ev2citrusleaf_cluster :=
  { hosts := [], node_v := [], n_partitions := 4096, follow := true, shutdown := false }

/-- Claim C6 is false as stated: a later ping response carrying
`partitions 8192` overwrites a stored count of 4096 instead of being
rejected. -/
theorem c6_counterexample :
    example_cluster_4096.n_partitions = 4096
  ∧ (cluster_ping_node_fn 0 (("partitions\t8192").data)
       ((("10.0.0.2").data), 3000) example_cluster_4096).n_partitions = 8192 := by
  decide

/-- Claim C6 (amended): the `partitions` field is only requested while the
stored count is zero (`cluster_new_sockaddr` asks for `node` alone once the
count is known), but whenever a ping response does carry a `partitions` field,
`cluster_ping_node_fn` stores its value unconditionally — a later response
with a different value overwrites the count rather than being rejected. -/
theorem c6_amended_partitions_overwrite :
    (∀ (asc : ev2citrusleaf_cluster) (sin : Sockaddr) (pg : Ping),
       cluster_new_sockaddr asc sin = some pg →
       (pg.2 = ("node\npartitions").data ↔ asc.n_partitions = 0))
  ∧ (∀ (asc : ev2citrusleaf_cluster) (v : CStr) (sa : Sockaddr),
       asc.shutdown = false → '\t' ∉ v → '\n' ∉ v → v ≠ [] →
       (cluster_ping_node_fn 0 ((("partitions").data) ++ '\t' :: v) sa asc).n_partitions
         = atoi v) := by
  constructor
  · intro asc sin pg h
    unfold cluster_new_sockaddr at h
    split at h
    · exact absurd h (by simp)
    · split at h
      · exact absurd h (by simp)
      · cases h
        show (if asc.n_partitions = 0 then ("node\npartitions").data else ("node").data)
            = ("node\npartitions").data ↔ asc.n_partitions = 0
        by_cases hz : asc.n_partitions = 0
        · rw [if_pos hz]
          exact ⟨fun _ => hz, fun _ => rfl⟩
        · rw [if_neg hz]
          constructor
          · intro hcontra
            exact absurd hcontra (by decide)
          · intro hcontra
            exact absurd hcontra hz
  · intro asc v sa hsd htv hnv hvne
    unfold cluster_ping_node_fn
    rw [if_neg (by simp [hsd])]
    have hline : str_split '\n' ((("partitions").data) ++ '\t' :: v)
        = [(("partitions").data) ++ '\t' :: v] := by
      apply str_split_no_sep
      · intro hm
        rcases List.mem_append.mp hm with h | h
        · exact absurd h (by decide)
        · rcases List.mem_cons.mp h with h | h
          · exact absurd h (by decide)
          · exact hnv h
      · simp
    rw [hline]
    simp only [List.map]
    rw [str_split_pair '\t' (("partitions").data) v (by decide) htv hvne]
    simp only [cluster_ping_node_pairs]
    unfold cluster_ping_node_pair
    rw [if_neg (by decide), if_pos rfl]

/-- Witness for `c6_amended_partitions_overwrite` at the concrete response
`partitions<TAB>8192` against a cluster whose stored count is 4096. -/
theorem c6_amended_partitions_overwrite_witness :
    (cluster_ping_node_fn 0 (("partitions\t8192").data) ((("10.0.0.2").data), 3000)
       example_cluster_4096).n_partitions = atoi (("8192").data) := by
  have hd : ("partitions\t8192").data = (("partitions").data) ++ '\t' :: (("8192").data) := by
    decide
  rw [hd]
  exact c6_amended_partitions_overwrite.2 example_cluster_4096 (("8192").data)
    ((("10.0.0.2").data), 3000) rfl (by decide) (by decide) (by decide)

/- ===================== C8 ===================== -/

/-- Claim C8: a record whose result code is `AEROSPIKE_ERR_RECORD_NOT_FOUND`,
or whose `info3` LAST bit is set, ends the node's scan cleanly — the parse
returns `AEROSPIKE_OK` and no further records of this node (same group or
later groups) reach the callback; any other non-zero result code fails the
node's scan with exactly that code. -/
theorem c8_scan_record_termination (m : as_msg_rec) (rest : List as_msg_rec)
    (gs : List (List as_msg_rec)) (hasCb : Bool) (endSt : as_status) :
    ((m.result_code = AEROSPIKE_ERR_RECORD_NOT_FOUND
        ∨ (m.result_code = 0 ∧ m.info3 &&& AS_MSG_INFO3_LAST ≠ 0)) →
       as_scan_parse hasCb false endSt ((m :: rest) :: gs) = (.AEROSPIKE_OK, 0))
  ∧ (m.result_code ≠ 0 → m.result_code ≠ AEROSPIKE_ERR_RECORD_NOT_FOUND →
       as_scan_parse hasCb false endSt ((m :: rest) :: gs)
         = (.serverResult m.result_code, 0)) := by
  constructor
  · rintro (hnf | ⟨h0, hlast⟩)
    · have hne : m.result_code ≠ 0 := by rw [hnf]; decide
      simp [as_scan_parse, as_scan_parse_records, hne, hnf,
        AEROSPIKE_ERR_RECORD_NOT_FOUND]
    · simp [as_scan_parse, as_scan_parse_records, h0, hlast]
  · intro h0 hnf
    simp [as_scan_parse, as_scan_parse_records, h0, hnf]

/-- Witness for `c8_scan_record_termination`: a single NOT_FOUND record ends
the node's scan with status OK and zero callbacks. -/
theorem c8_scan_record_termination_witness :
    as_scan_parse true false as_status.AEROSPIKE_OK
      [[{ result_code := 2, info3 := 0, cbReturn := true }]]
      = (as_status.AEROSPIKE_OK, 0) :=
  (c8_scan_record_termination { result_code := 2, info3 := 0, cbReturn := true } [] []
    true as_status.AEROSPIKE_OK).1 (Or.inl rfl)

/- ===================== C9 ===================== -/

lemma as_scan_aggregate_status_ok_or_abort (results : List as_status)
    (h : ∀ r ∈ results, r = .AEROSPIKE_OK ∨ r = .AEROSPIKE_ERR_CLIENT_ABORT) :
    as_scan_aggregate_status results = .AEROSPIKE_OK
      ∨ as_scan_aggregate_status results = .AEROSPIKE_ERR_CLIENT_ABORT := by
  unfold as_scan_aggregate_status
  have hgen : ∀ (l : List as_status),
      (∀ r ∈ l, r = .AEROSPIKE_OK ∨ r = .AEROSPIKE_ERR_CLIENT_ABORT) →
      ∀ init : as_status,
      (init = .AEROSPIKE_OK ∨ init = .AEROSPIKE_ERR_CLIENT_ABORT) →
      l.foldl (fun st r => if r ≠ .AEROSPIKE_OK ∧ st = .AEROSPIKE_OK then r else st) init
          = .AEROSPIKE_OK
        ∨ l.foldl (fun st r => if r ≠ .AEROSPIKE_OK ∧ st = .AEROSPIKE_OK then r else st) init
          = .AEROSPIKE_ERR_CLIENT_ABORT := by
    intro l
    induction l with
    | nil => intro _ init hinit; simpa using hinit
    | cons r rest ih =>
      intro hmem init hinit
      simp only [List.foldl]
      apply ih (fun x hx => hmem x (List.mem_cons_of_mem r hx))
      by_cases hc : r ≠ as_status.AEROSPIKE_OK ∧ init = as_status.AEROSPIKE_OK
      · rw [if_pos hc]
        exact hmem r (List.mem_cons_self r rest)
      · rw [if_neg hc]
        exact hinit
  exact hgen results h as_status.AEROSPIKE_OK (Or.inl rfl)

/-- Claim C9: a `false` callback verdict surfaces as
`AEROSPIKE_ERR_CLIENT_ABORT` from the node parse; at the executor's completion
stage, results consisting only of OK and CLIENT_ABORT collapse to an overall
OK; and the final NULL-record callback happens exactly when a callback was
supplied and the overall status is OK. -/
theorem c9_scan_abort_collapse :
    (∀ (m : as_msg_rec) (rest : List as_msg_rec) (gs : List (List as_msg_rec))
       (endSt : as_status),
       m.result_code = 0 → m.info3 &&& AS_MSG_INFO3_LAST = 0 → m.cbReturn = false →
       (as_scan_parse true false endSt ((m :: rest) :: gs)).1
         = .AEROSPIKE_ERR_CLIENT_ABORT)
  ∧ (∀ (results : List as_status) (hasCb : Bool),
       (∀ r ∈ results, r = .AEROSPIKE_OK ∨ r = .AEROSPIKE_ERR_CLIENT_ABORT) →
       as_scan_generic_complete results hasCb = (.AEROSPIKE_OK, hasCb))
  ∧ (∀ (results : List as_status) (hasCb : Bool),
       (as_scan_generic_complete results hasCb).2 = true ↔
         (hasCb = true ∧ (as_scan_generic_complete results hasCb).1 = .AEROSPIKE_OK)) := by
  refine ⟨?_, ?_, ?_⟩
  · intro m rest gs endSt h0 hlast hcb
    simp [as_scan_parse, as_scan_parse_records, as_scan_parse_record, h0, hlast, hcb]
  · intro results hasCb h
    rcases as_scan_aggregate_status_ok_or_abort results h with hok | habort
    · simp [as_scan_generic_complete, hok]
    · simp [as_scan_generic_complete, habort]
  · intro results hasCb
    simp only [as_scan_generic_complete]
    simp
    intro _
    by_cases h : as_scan_aggregate_status results = as_status.AEROSPIKE_ERR_CLIENT_ABORT <;>
      simp [h]

/-- Witness for `c9_scan_abort_collapse`: one aborted worker collapses to an
overall OK with the final callback made. -/
theorem c9_scan_abort_collapse_witness :
    as_scan_generic_complete [as_status.AEROSPIKE_ERR_CLIENT_ABORT] true
      = (as_status.AEROSPIKE_OK, true) :=
  c9_scan_abort_collapse.2.1 [as_status.AEROSPIKE_ERR_CLIENT_ABORT] true
    (by intro r hr; rw [List.mem_singleton] at hr; exact Or.inr hr)

/- ===================== C10 ===================== -/

lemma as_node_get_by_name_eq_none (nodes : List CStr) (name : CStr)
    (h : ∀ n ∈ nodes, n ≠ name) : as_node_get_by_name nodes name = none := by
  induction nodes with
  | nil => rfl
  | cons n rest ih =>
    unfold as_node_get_by_name
    rw [if_neg (h n (List.mem_cons_self n rest))]
    exact ih (fun x hx => h x (List.mem_cons_of_mem n hx))

/-- Claim C10: when the node name matches no node of the cluster,
`aerospike_scan_node` returns `AEROSPIKE_ERR_PARAM` and makes no callback
invocation at all — in particular not the final NULL end-of-stream one. -/
theorem c10_scan_node_invalid_name (cluster_nodes : List CStr) (node_name : CStr)
    (hasCb : Bool) (execStatus : as_status) (execCallbacks : Nat)
    (h : ∀ n ∈ cluster_nodes, n ≠ node_name) :
    aerospike_scan_node cluster_nodes node_name hasCb execStatus execCallbacks
      = (.AEROSPIKE_ERR_PARAM, 0) := by
  unfold aerospike_scan_node
  rw [as_node_get_by_name_eq_none cluster_nodes node_name h]

/-- Witness for `c10_scan_node_invalid_name`: scanning node `C` in a cluster
holding `A` and `B`. -/
theorem c10_scan_node_invalid_name_witness :
    aerospike_scan_node [(("A").data), (("B").data)] (("C").data) true
      as_status.AEROSPIKE_OK 0 = (as_status.AEROSPIKE_ERR_PARAM, 0) :=
  c10_scan_node_invalid_name [(("A").data), (("B").data)] (("C").data) true
    as_status.AEROSPIKE_OK 0 (by decide)

end Aerospike
